import Mathlib

/-!
Verification of the Smart-Librarian RAG orchestration engine
(`src/smart_librarian/core/rag_service.py`) against its specification.

The Python service is shallowly embedded: external services (embedding,
vector index, the two chat-completion phases, image generation) are
modelled as oracle functions supplied to the pure interpreter
`ask_book_chat`, Python `None`-able strings become `Option String`,
Python truthiness of strings is made explicit, the `functools.lru_cache`
on `_get_embedding` becomes an explicit most-recent-first association
list, and every external call the service makes is recorded in an event
trace so that "no chat call is attempted"-style properties are statable.
-/

namespace SmartLibrarian

/-- Embedding vectors are semantically opaque; only identity matters here,
so they are modelled with decidable equality. -/
abbrev Vec := List Int

/-- Message roles of the OpenAI chat API as used by the service. -/
inductive Role where
  | system
  | user
  | assistant
  | tool
deriving DecidableEq, Repr

/-- One tool call requested by an assistant reply: its id, the function
name, and the (already JSON-decoded) string-valued argument object. -/
structure ToolCall where
  id : String
  fnName : String
  args : List (String × String)
deriving DecidableEq, Repr

/-- A chat message as the service reads and writes them: role, optional
text content, the tool calls attached to an assistant reply, and the
`name` / `tool_call_id` fields a tool-role message carries. -/
structure ChatMsg where
  role : Role
  content : Option String
  toolCalls : List ToolCall
  msgName : Option String
  toolCallId : Option String
deriving DecidableEq, Repr

/-- The user message `messages.append({"role": "user", "content": prompt})`. -/
def userMsg (s : String) : ChatMsg :=
  ⟨Role.user, some s, [], none, none⟩

/-- The tool-result message appended between the two model calls. -/
def toolMsg (callId fn content : String) : ChatMsg :=
  ⟨Role.tool, some content, [], some fn, some callId⟩

/-- External calls the service makes, recorded as an event trace. -/
inductive Event where
  | embedCall (q : String)
  | chatCall (phase : Nat)
  | lookupCall (title : String)
  | imageCall (title : String)
deriving DecidableEq, Repr

/-- Python `dict.get`: first-match association-list lookup under exact
string equality (Python `str` keys hash and compare by exact contents). -/
def dictGet {β : Type} : List (String × β) → String → Option β
  | [], _ => none
  | (k, v) :: rest, q => if k = q then some v else dictGet rest q

/-- Python truthiness of a `str | None` value: `None` and `""` are falsy. -/
def pyTruthy : Option String → Bool
  | none => false
  | some s => !(s == "")

/-- Python `content or fallback` on a `str | None` value. -/
def pyOrElse (c : Option String) (fallback : String) : String :=
  match c with
  | none => fallback
  | some s => if s = "" then fallback else s

/-- The sentinel returned by `get_summary_by_title` for a missing title:
`f"The summary for the book '{title}' was not found."`. -/
def notFoundSentinel (title : String) : String :=
  "The summary for the book '" ++ title ++ "' was not found."

/-- Embedding of `RAGService.get_summary_by_title`: look the title up in
the summaries mapping; `if summary:` returns it only when it is a
non-`None`, non-empty string, else the sentinel text. -/
def get_summary_by_title (summaries : List (String × String)) (title : String) : String :=
  match dictGet summaries title with
  | some s => if s = "" then notFoundSentinel title else s
  | none => notFoundSentinel title

/-- The `lru_cache(maxsize=128)` bound on `_get_embedding`. -/
def lruMaxSize : Nat := 128

/-- The embedding cache: association list, most recently used first. -/
abbrev EmbCache := List (String × Vec)

/-- Lookup in the cache (exact key equality, like `lru_cache`). -/
def lruLookup : EmbCache → String → Option Vec
  | [], _ => none
  | (k, v) :: rest, q => if k = q then some v else lruLookup rest q

/-- Remove every entry for a key (used to move a hit to the front). -/
def lruRemove : EmbCache → String → EmbCache
  | [], _ => []
  | (k, v) :: rest, q =>
    if k = q then lruRemove rest q else (k, v) :: lruRemove rest q

/-- Result of the embedding step: the vector, the updated cache, and the
external-call trace (empty on a cache hit). -/
structure EmbedOut where
  vec : Vec
  cache : EmbCache
  events : List Event
deriving DecidableEq, Repr

/-- Embedding of `RAGService._get_embedding` under `@lru_cache(maxsize=128)`:
on a hit the stored vector is returned with no external call and the entry
moves to most-recently-used position; on a miss the embedding service is
called with exactly the query string, and the result is stored keyed by
that exact string, evicting the least recently used entry beyond 128. -/
def getEmbedding (embedSvc : String → Vec) (c : EmbCache) (q : String) : EmbedOut :=
  match lruLookup c q with
  | some v => ⟨v, (q, v) :: lruRemove c q, []⟩
  | none =>
    let v := embedSvc q
    ⟨v, ((q, v) :: c).take lruMaxSize, [Event.embedCall q]⟩

/-- The delimiter the service joins retrieved documents with:
`"\n\n---\n\n".join(retrieved_docs)`. -/
def docDelim : String := "\n\n---\n\n"

/-- Python `"sep".join(docs)` for the context block. -/
def joinDocs : List String → String
  | [] => ""
  | [d] => d
  | d :: rest => d ++ docDelim ++ joinDocs rest

/-- The prompt template text before the interpolated context block. -/
def promptHead : String :=
  "\nYou are a specialized book recommendation assistant. Your task is to follow these rules strictly:\n\n1.  Your ONLY source of information is the \"Available Summaries\" provided below. Do NOT use any of your own knowledge about books.\n2.  You must analyze the user's interest and compare it against the provided summaries.\n3.  **Decision Rule:**\n    - **IF** you find a book summary that is a strong, direct match for the user's interest, you will recommend that ONE book.\n    - **ELSE** (if there are no strong matches or the summaries are irrelevant to the user's interest), you MUST respond with: \"I couldn't find a suitable book in my database for that specific interest. Could I help you with a different theme?\" Do not try to recommend the 'closest' or 'most similar' book if it is not a good fit.\n\n4.  **Format for a Successful Recommendation:**\n    - First, provide a brief, 1-2 sentence explanation for why the book is a good match.\n    - After your explanation, you MUST call the `get_summary_by_title` tool. Do not write the summary yourself.\n\n---\nAvailable summaries (context):\n"

/-- The prompt template text between the context block and the query. -/
def promptMid : String := "\n---\n\nUser's interest: \""

/-- The prompt template text after the interpolated query. -/
def promptTail : String := "\"\n"

/-- Embedding of the augmentation step: the f-string prompt built from the
joined context block and the raw query. -/
def buildPrompt (query : String) (docs : List String) : String :=
  promptHead ++ joinDocs docs ++ promptMid ++ query ++ promptTail

/-- The image-generation prompt of `_generate_image_for_book`, using the
title and the first 500 characters of the summary (`summary[:500]`). -/
def imagePrompt (title summary : String) : String :=
  "A symbolic and atmospheric digital painting inspired by the book '" ++ title ++
    "'. The artwork should be a visual metaphor for the book's main themes, derived from the summary: '" ++
    summary.take 500 ++
    "'. Focus on mood, imagery, and symbolism to evoke the feeling of the story. "

/-- The oracles standing for the external services: the embedding service,
the vector index (`collection.query` with `n_results=3`, read off as
`results['documents'][0]`), the phase-1 chat call (reply message), the
phase-2 chat call (reply content, `None`-able), and the image-generation
call, whose `Except.error` case stands for a raised exception and whose
`Except.ok` payload is the `response.data[0].url` field (itself optional). -/
structure Oracles where
  embedSvc : String → Vec
  indexQuery : Vec → List String
  phase1 : List ChatMsg → ChatMsg
  phase2 : List ChatMsg → Option String
  imageGen : String → Except String (Option String)

/-- Embedding of `RAGService._generate_image_for_book`: build the image
prompt, call the image service, return the url; any raised exception is
caught locally and resolves to `None`. -/
def generate_image_for_book (imageGen : String → Except String (Option String))
    (title summary : String) : Option String :=
  match imageGen (imagePrompt title summary) with
  | Except.ok url => url
  | Except.error _ => none

/-- The fallback sentence of the no-tool-call branch:
`response_message.content or "I was unable to generate a response."`. -/
def noResponseFallback : String := "I was unable to generate a response."

/-- The fixed apology returned when retrieval yields no documents. -/
def noBooksApology : String :=
  "I'm sorry, I couldn't find any books matching your interest. Could you please rephrase?"

/-- The title a tool call requests:
`args.get("title", "")`, defaulting to the empty string. -/
def titleOf (tc : ToolCall) : String :=
  (dictGet tc.args "title").getD ""

/-- Outcome of the function-calling section of `ask_book_chat`
(lines 181-210): the `final_text_content` value (`None`-able, since the
phase-2 reply content is returned unguarded), the `recommended_title`
value, the history after any tool-message append, and the events of this
section. -/
structure ToolPhaseOut where
  finalText : Option String
  recommendedTitle : String
  history : List ChatMsg
  events : List Event
deriving Repr

/-- Embedding of the function-calling section: if the phase-1 reply holds
tool calls, only `tool_calls[0]` is examined; when it names
`get_summary_by_title` the title argument is extracted (defaulting to ""),
looked up, a tool-role message is appended and the phase-2 call made;
when it names anything else, `final_text_content` stays `""` and
`recommended_title` stays `""`; with no tool call at all the reply's own
content (or the fallback sentence) becomes the final text. -/
def toolPhase (o : Oracles) (summaries : List (String × String))
    (messages2 : List ChatMsg) (reply : ChatMsg) : ToolPhaseOut :=
  match reply.toolCalls with
  | [] => ⟨some (pyOrElse reply.content noResponseFallback), "", messages2, []⟩
  | tc :: _ =>
    if tc.fnName = "get_summary_by_title" then
      let recommendedTitle := titleOf tc
      let toolResponse := get_summary_by_title summaries recommendedTitle
      let messages3 := messages2 ++ [toolMsg tc.id tc.fnName toolResponse]
      let finalText := o.phase2 messages3
      ⟨finalText, recommendedTitle,
        messages3, [Event.lookupCall recommendedTitle, Event.chatCall 2]⟩
    else
      ⟨some "", "", messages2, []⟩

/-- Embedding of the image-generation section (lines 212-218): run only
when both `recommended_title` and `final_text_content` are truthy and the
summaries mapping holds a truthy summary for the title. -/
def imagePhase (o : Oracles) (summaries : List (String × String))
    (recommendedTitle : String) (finalText : Option String) :
    Option String × List Event :=
  if recommendedTitle ≠ "" ∧ pyTruthy finalText then
    let bookSummary := (dictGet summaries recommendedTitle).getD ""
    if bookSummary ≠ "" then
      (generate_image_for_book o.imageGen recommendedTitle bookSummary,
        [Event.imageCall recommendedTitle])
    else (none, [])
  else (none, [])

/-- The full observable outcome of one `ask_book_chat` call: the returned
text (`None`-able) and image url, the conversation history after the
call's in-place appends, the embedding cache after the call, and the
trace of external calls made. -/
structure AskOut where
  text : Option String
  imageUrl : Option String
  history : List ChatMsg
  cache : EmbCache
  events : List Event
deriving Repr

/-- Embedding of `RAGService.ask_book_chat`: embed the query through the
LRU cache, retrieve documents, decline with the fixed apology when none
come back (before touching the history), otherwise append the augmented
user prompt, make the phase-1 call, append its reply, run the
function-calling section and then the image section, and return
`(final_text_content, image_url)`. -/
def ask_book_chat (o : Oracles) (summaries : List (String × String))
    (cache : EmbCache) (query : String) (messages : List ChatMsg) : AskOut :=
  let e0 := getEmbedding o.embedSvc cache query
  let retrievedDocs := o.indexQuery e0.vec
  if retrievedDocs = [] then
    ⟨some noBooksApology, none, messages, e0.cache, e0.events⟩
  else
    let prompt := buildPrompt query retrievedDocs
    let messages1 := messages ++ [userMsg prompt]
    let reply := o.phase1 messages1
    let messages2 := messages1 ++ [reply]
    let tp := toolPhase o summaries messages2 reply
    let ip := imagePhase o summaries tp.recommendedTitle tp.finalText
    ⟨tp.finalText, ip.1, tp.history, e0.cache,
      e0.events ++ [Event.chatCall 1] ++ tp.events ++ ip.2⟩

/-! ### Helper lemmas -/

/-- A key absent from every pair of the association list is not found. -/
theorem dictGet_eq_none_of_forall_ne {β : Type} (d : List (String × β)) (t : String)
    (h : ∀ p ∈ d, p.1 ≠ t) : dictGet d t = none := by
  induction d with
  | nil => rfl
  | cons p rest ih =>
    obtain ⟨k, v⟩ := p
    have hk : k ≠ t := h (k, v) (List.mem_cons_self _ _)
    simp only [dictGet, if_neg hk]
    exact ih fun p hp => h p (List.mem_cons_of_mem _ hp)

/-- Removing a key never lengthens the cache. -/
theorem lruRemove_length_le (c : EmbCache) (q : String) :
    (lruRemove c q).length ≤ c.length := by
  induction c with
  | nil => simp [lruRemove]
  | cons p rest ih =>
    obtain ⟨k, v⟩ := p
    by_cases hk : k = q
    · simp only [lruRemove, if_pos hk]
      exact Nat.le_succ_of_le ih
    · simp only [lruRemove, if_neg hk, List.length_cons]
      exact Nat.succ_le_succ ih

/-- Removing a key that is present strictly shrinks the cache. -/
theorem lruRemove_length_lt (c : EmbCache) (q : String) (v : Vec)
    (h : lruLookup c q = some v) : (lruRemove c q).length < c.length := by
  induction c with
  | nil => simp [lruLookup] at h
  | cons p rest ih =>
    obtain ⟨k, w⟩ := p
    by_cases hk : k = q
    · simp only [lruRemove, if_pos hk, List.length_cons]
      exact Nat.lt_succ_of_le (lruRemove_length_le rest q)
    · simp only [lruLookup, if_neg hk] at h
      simp only [lruRemove, if_neg hk, List.length_cons]
      exact Nat.succ_lt_succ (ih h)

/-- The embedding step's trace is empty (hit) or one call (miss). -/
theorem getEmbedding_events (svc : String → Vec) (c : EmbCache) (q : String) :
    (getEmbedding svc c q).events = [] ∨
      (getEmbedding svc c q).events = [Event.embedCall q] := by
  unfold getEmbedding
  cases lruLookup c q <;> simp

/-- The spec-side containment predicate for C7: every listed string occurs
verbatim in `s`, and in the listed relative order (each later string
occurs in the remainder after the previous occurrence). -/
def containsInOrder (s : String) : List String → Prop
  | [] => True
  | d :: rest => ∃ a b, s = a ++ d ++ b ∧ containsInOrder b rest

/-- The joined context block, wherever it is embedded, contains the
documents verbatim and in order. -/
theorem containsInOrder_joinDocs (docs : List String) :
    ∀ a b : String, containsInOrder (a ++ joinDocs docs ++ b) docs := by
  induction docs with
  | nil => intro a b; trivial
  | cons d rest ih =>
    intro a b
    cases rest with
    | nil =>
      exact ⟨a, b, by simp [joinDocs, String.append_assoc], trivial⟩
    | cons r rs =>
      refine ⟨a, docDelim ++ joinDocs (r :: rs) ++ b, ?_, ih docDelim b⟩
      simp [joinDocs, String.append_assoc]

/-- In-order containment yields plain verbatim containment of members. -/
theorem containsInOrder_mem (l : List String) :
    ∀ s : String, containsInOrder s l → ∀ d ∈ l, ∃ a b, s = a ++ d ++ b := by
  induction l with
  | nil => intro s _ d hd; simp at hd
  | cons x rest ih =>
    intro s hs d hd
    obtain ⟨a, b, hab, hb⟩ := hs
    rcases List.mem_cons.mp hd with hdx | hdr
    · exact ⟨a, b, by rw [hab, hdx]⟩
    · obtain ⟨a2, b2, hb2⟩ := ih b hb d hdr
      exact ⟨a ++ x ++ a2, b2, by rw [hab, hb2]; simp [String.append_assoc]⟩

/-! ### C4 — RecordLookup -/

/-- C4 (counterexample): the claim's sentinel wording is not the code's.
With an empty Record table, looking up "X" yields the code's sentinel
"The summary for the book 'X' was not found.", not the claimed
"summary not found for 'X'"; and with a table whose stored summary for
"T" is the empty string, the lookup does not return that stored summary
but the sentinel, because the code tests Python truthiness. -/
theorem lookup_sentinel_cex :
    get_summary_by_title [] "X" ≠ "summary not found for 'X'"
    ∧ get_summary_by_title [("T", "")] "T" ≠ "" := by
  exact ⟨by decide, by decide⟩

/-- C4 (amended): `get_summary_by_title` is an exact-match, total lookup:
it returns the stored summary when the title is present with a non-empty
summary; it returns the fixed sentinel "The summary for the book
'&lt;title&gt;' was not found." when the title is absent or its stored summary
is the empty string; a title not exactly equal to any stored key (so in
particular under any case change) gets the sentinel. -/
theorem lookup_exact_match (d : List (String × String)) (t : String) :
    (∀ s, dictGet d t = some s → s ≠ "" → get_summary_by_title d t = s)
    ∧ (dictGet d t = none → get_summary_by_title d t = notFoundSentinel t)
    ∧ (dictGet d t = some "" → get_summary_by_title d t = notFoundSentinel t)
    ∧ ((∀ p ∈ d, p.1 ≠ t) → get_summary_by_title d t = notFoundSentinel t) := by
  refine ⟨?_, ?_, ?_, ?_⟩
  · intro s hs hne
    simp [get_summary_by_title, hs, hne]
  · intro hn
    simp [get_summary_by_title, hn]
  · intro hs
    simp [get_summary_by_title, hs]
  · intro hall
    simp [get_summary_by_title, dictGet_eq_none_of_forall_ne d t hall]

/-- C4 (witness): concrete exact-match behavior, including the absence of
case folding and the sentinel on a miss. -/
theorem lookup_exact_match_witness :
    get_summary_by_title [("Dune", "A desert planet epic.")] "Dune" = "A desert planet epic."
    ∧ get_summary_by_title [("Dune", "A desert planet epic.")] "dune" =
        notFoundSentinel "dune" := by
  constructor
  · exact (lookup_exact_match [("Dune", "A desert planet epic.")] "Dune").1
      "A desert planet epic." (by decide) (by decide)
  · exact (lookup_exact_match [("Dune", "A desert planet epic.")] "dune").2.1 (by decide)

/-! ### C6 — EmbeddingCache -/

/-- C6: calling the embedding step twice with the identical query string
makes at most one external embedding call in total: the second call is a
cache hit (its trace is empty) returning exactly the first call's vector;
after the first call the vector is stored under the exact query string;
and the cache never grows beyond the fixed bound of 128 entries. -/
theorem embedding_cached_second_call (svc : String → Vec) (c : EmbCache) (q : String) :
    (getEmbedding svc (getEmbedding svc c q).cache q).events = []
    ∧ (getEmbedding svc (getEmbedding svc c q).cache q).vec = (getEmbedding svc c q).vec
    ∧ (getEmbedding svc c q).events.length
        + (getEmbedding svc (getEmbedding svc c q).cache q).events.length ≤ 1
    ∧ lruLookup (getEmbedding svc c q).cache q = some (getEmbedding svc c q).vec
    ∧ (c.length ≤ lruMaxSize → (getEmbedding svc c q).cache.length ≤ lruMaxSize) := by
  cases h : lruLookup c q with
  | some v =>
    have h1 : getEmbedding svc c q = ⟨v, (q, v) :: lruRemove c q, []⟩ := by
      simp [getEmbedding, h]
    have h2 : lruLookup ((q, v) :: lruRemove c q) q = some v := by
      simp [lruLookup]
    refine ⟨?_, ?_, ?_, ?_, ?_⟩
    · rw [h1]; simp [getEmbedding, h2]
    · rw [h1]; simp [getEmbedding, h2]
    · rw [h1]; simp [getEmbedding, h2]
    · rw [h1]; simp [h2]
    · intro hc
      rw [h1]
      simp only [List.length_cons]
      exact le_trans (Nat.succ_le_of_lt (lruRemove_length_lt c q v h)) hc
  | none =>
    have h1 : getEmbedding svc c q =
        ⟨svc q, (q, svc q) :: c.take 127, [Event.embedCall q]⟩ := by
      simp [getEmbedding, h, lruMaxSize]
    have h2 : lruLookup ((q, svc q) :: c.take 127) q = some (svc q) := by
      simp [lruLookup]
    refine ⟨?_, ?_, ?_, ?_, ?_⟩
    · rw [h1]; simp [getEmbedding, h2]
    · rw [h1]; simp [getEmbedding, h2]
    · rw [h1]; simp [getEmbedding, h2]
    · rw [h1]; simp [h2]
    · intro _
      rw [h1]
      simp only [List.length_cons, lruMaxSize]
      have : (c.take 127).length ≤ 127 := le_trans (List.length_take_le 127 c) (le_refl 127)
      omega

/-- C6 (witness): on the empty cache, embedding "sci fi" twice calls the
service once, the repeat is a hit with the stored vector, and the bound
holds. -/
theorem embedding_cached_second_call_witness :
    (getEmbedding (fun _ => [7]) ((getEmbedding (fun _ => [7]) [] "sci fi").cache) "sci fi").events = []
    ∧ ([] : EmbCache).length ≤ lruMaxSize
    ∧ ((getEmbedding (fun _ => [7]) [] "sci fi").cache).length ≤ lruMaxSize := by
  have h := embedding_cached_second_call (fun _ => [7]) [] "sci fi"
  exact ⟨h.1, by decide, h.2.2.2.2 (by decide)⟩

/-! ### C7 — PromptBuilder -/

/-- C7: the prompt built from a query and the retrieved documents is the
fixed instruction template around the context block (the documents joined
by the fixed delimiter line) and the raw query; the documents appear in
the prompt verbatim and in their input order, each document appears
verbatim somewhere in the prompt, and the raw query appears verbatim. -/
theorem prompt_contains_docs_in_order (q : String) (docs : List String) :
    buildPrompt q docs = promptHead ++ joinDocs docs ++ (promptMid ++ q ++ promptTail)
    ∧ containsInOrder (buildPrompt q docs) docs
    ∧ (∀ d ∈ docs, ∃ a b, buildPrompt q docs = a ++ d ++ b)
    ∧ (∃ a b, buildPrompt q docs = a ++ q ++ b) := by
  have hshape : buildPrompt q docs =
      promptHead ++ joinDocs docs ++ (promptMid ++ q ++ promptTail) := by
    simp [buildPrompt, String.append_assoc]
  have hcio : containsInOrder (buildPrompt q docs) docs := by
    rw [hshape]
    exact containsInOrder_joinDocs docs promptHead (promptMid ++ q ++ promptTail)
  refine ⟨hshape, hcio, ?_, ?_⟩
  · exact containsInOrder_mem docs (buildPrompt q docs) hcio
  · exact ⟨promptHead ++ joinDocs docs ++ promptMid, promptTail, by
      simp [buildPrompt, String.append_assoc]⟩

/-- C7 (witness): with three concrete documents, each document text and
the query occur verbatim in the built prompt. -/
theorem prompt_contains_docs_in_order_witness :
    ∃ a b, buildPrompt "time travel" ["doc one", "doc two", "doc three"] = a ++ "doc two" ++ b := by
  exact (prompt_contains_docs_in_order "time travel" ["doc one", "doc two", "doc three"]).2.2.1
    "doc two" (by simp)

/-! ### C1 and C10 — empty retrieval -/

/-- C1: when vector retrieval returns zero documents, `ask_book_chat`
returns the fixed apology text with a null image url, and its external
trace holds at most the embedding call — no phase-1 or phase-2 chat
call, no lookup and no image call is attempted. -/
theorem empty_retrieval_declines (o : Oracles) (s : List (String × String))
    (c : EmbCache) (q : String) (m : List ChatMsg)
    (h : o.indexQuery (getEmbedding o.embedSvc c q).vec = []) :
    (ask_book_chat o s c q m).text = some noBooksApology
    ∧ (ask_book_chat o s c q m).imageUrl = none
    ∧ ∀ e ∈ (ask_book_chat o s c q m).events, e = Event.embedCall q := by
  have ha : ask_book_chat o s c q m =
      ⟨some noBooksApology, none, m, (getEmbedding o.embedSvc c q).cache,
        (getEmbedding o.embedSvc c q).events⟩ := by
    simp [ask_book_chat, h]
  refine ⟨by rw [ha], by rw [ha], ?_⟩
  rw [ha]
  intro e he
  rcases getEmbedding_events o.embedSvc c q with hev | hev
  · rw [hev] at he
    simp at he
  · rw [hev] at he
    simpa using he

/-- C1 (witness): a concrete run against an index that returns nothing. -/
def declineOracles : Oracles :=
  { embedSvc := fun _ => [1]
    indexQuery := fun _ => []
    phase1 := fun _ => ⟨Role.assistant, some "unused", [], none, none⟩
    phase2 := fun _ => none
    imageGen := fun _ => Except.error "unused" }

/-- C1 (witness): on an empty index the apology text comes back with no
image and no chat, lookup or image call in the trace. -/
theorem empty_retrieval_declines_witness :
    (ask_book_chat declineOracles [] [] "space opera" []).text = some noBooksApology
    ∧ (ask_book_chat declineOracles [] [] "space opera" []).imageUrl = none := by
  have h := empty_retrieval_declines declineOracles [] [] "space opera" [] (by rfl)
  exact ⟨h.1, h.2.1⟩

/-- C10: when vector retrieval returns zero documents, `ask_book_chat`
returns before appending anything: the caller's conversation history is
left exactly as it was passed in. -/
theorem empty_retrieval_preserves_history (o : Oracles) (s : List (String × String))
    (c : EmbCache) (q : String) (m : List ChatMsg)
    (h : o.indexQuery (getEmbedding o.embedSvc c q).vec = []) :
    (ask_book_chat o s c q m).history = m := by
  simp [ask_book_chat, h]

/-- C10 (witness): the input history of a declined concrete run survives
unchanged. -/
theorem empty_retrieval_preserves_history_witness :
    (ask_book_chat declineOracles [] [] "space opera"
        [⟨Role.system, some "You are a librarian.", [], none, none⟩]).history =
      [⟨Role.system, some "You are a librarian.", [], none, none⟩] :=
  empty_retrieval_preserves_history declineOracles [] [] "space opera"
    [⟨Role.system, some "You are a librarian.", [], none, none⟩] (by rfl)

/-! ### C2 — no tool call in the phase-1 reply -/

/-- Oracles whose phase-1 reply carries no tool call and empty text. -/
def emptyReplyOracles : Oracles :=
  { embedSvc := fun _ => [0]
    indexQuery := fun _ => ["doc"]
    phase1 := fun _ => ⟨Role.assistant, some "", [], none, none⟩
    phase2 := fun _ => none
    imageGen := fun _ => Except.error "unused" }

/-- C2 (counterexample): the phase-1 reply of this concrete run has no
tool call and its own text is the empty string, yet `ask_book_chat` does
not return that text verbatim: the code's `or`-fallback replaces any
falsy reply content with the fixed sentence "I was unable to generate a
response.". -/
theorem no_tool_call_not_verbatim_cex :
    (emptyReplyOracles.phase1 ([] ++ [userMsg (buildPrompt "q" ["doc"])])).toolCalls = []
    ∧ (emptyReplyOracles.phase1 ([] ++ [userMsg (buildPrompt "q" ["doc"])])).content = some ""
    ∧ (ask_book_chat emptyReplyOracles [] [] "q" []).text = some noResponseFallback
    ∧ (ask_book_chat emptyReplyOracles [] [] "q" []).text ≠ some "" := by
  refine ⟨rfl, rfl, ?_, ?_⟩
  · simp [ask_book_chat, emptyReplyOracles, getEmbedding, lruLookup, toolPhase,
      imagePhase, pyOrElse]
  · simp [ask_book_chat, emptyReplyOracles, getEmbedding, lruLookup, toolPhase,
      imagePhase, pyOrElse, noResponseFallback]

/-- C2 (amended): when the phase-1 reply contains no tool call,
`ask_book_chat` returns the reply's own text verbatim whenever that text
is a non-empty string, and the fixed fallback sentence "I was unable to
generate a response." when the reply text is missing or empty; in either
case the lookup tool is never invoked, no second chat call is made, the
image synthesizer is never invoked and the image url is null. -/
theorem no_tool_call_declines (o : Oracles) (s : List (String × String))
    (c : EmbCache) (q : String) (m : List ChatMsg)
    (docs : List String) (reply : ChatMsg)
    (hdocs : o.indexQuery (getEmbedding o.embedSvc c q).vec = docs)
    (hd : docs ≠ [])
    (hreply : o.phase1 (m ++ [userMsg (buildPrompt q docs)]) = reply)
    (hr : reply.toolCalls = []) :
    (∀ t, reply.content = some t → t ≠ "" → (ask_book_chat o s c q m).text = some t)
    ∧ ((reply.content = none ∨ reply.content = some "") →
        (ask_book_chat o s c q m).text = some noResponseFallback)
    ∧ (ask_book_chat o s c q m).imageUrl = none
    ∧ (ask_book_chat o s c q m).history = m ++ [userMsg (buildPrompt q docs), reply]
    ∧ (∀ t, Event.lookupCall t ∉ (ask_book_chat o s c q m).events)
    ∧ Event.chatCall 2 ∉ (ask_book_chat o s c q m).events
    ∧ (∀ t, Event.imageCall t ∉ (ask_book_chat o s c q m).events) := by
  have ha : ask_book_chat o s c q m =
      ⟨some (pyOrElse reply.content noResponseFallback), none,
        m ++ [userMsg (buildPrompt q docs), reply],
        (getEmbedding o.embedSvc c q).cache,
        (getEmbedding o.embedSvc c q).events ++ [Event.chatCall 1]⟩ := by
    simp [ask_book_chat, hdocs, hd, hreply, toolPhase, hr, imagePhase]
  have hev : ∀ e ∈ (getEmbedding o.embedSvc c q).events ++ [Event.chatCall 1],
      e = Event.embedCall q ∨ e = Event.chatCall 1 := by
    intro e he
    rcases getEmbedding_events o.embedSvc c q with h0 | h0 <;> rw [h0] at he
    · simp at he
      exact Or.inr he
    · simpa using he
  refine ⟨?_, ?_, by rw [ha], by rw [ha], ?_, ?_, ?_⟩
  · intro t ht hne
    rw [ha]
    simp [pyOrElse, ht, hne]
  · intro h0
    rw [ha]
    rcases h0 with h0 | h0 <;> simp [pyOrElse, h0]
  · intro t hmem
    rw [ha] at hmem
    rcases hev _ hmem with h0 | h0 <;> exact Event.noConfusion h0
  · intro hmem
    rw [ha] at hmem
    rcases hev _ hmem with h0 | h0
    · exact Event.noConfusion h0
    · simp at h0
  · intro t hmem
    rw [ha] at hmem
    rcases hev _ hmem with h0 | h0 <;> exact Event.noConfusion h0

/-- Oracles whose phase-1 reply declines in the model's own words. -/
def politeDeclineOracles : Oracles :=
  { embedSvc := fun _ => [0]
    indexQuery := fun _ => ["doc"]
    phase1 := fun _ =>
      ⟨Role.assistant, some "Nothing here fits that interest.", [], none, none⟩
    phase2 := fun _ => none
    imageGen := fun _ => Except.error "unused" }

/-- C2 (witness): a concrete no-tool-call run returns the model's
non-empty decline text verbatim with a null image url. -/
theorem no_tool_call_declines_witness :
    (ask_book_chat politeDeclineOracles [] [] "cooking" []).text =
        some "Nothing here fits that interest."
    ∧ (ask_book_chat politeDeclineOracles [] [] "cooking" []).imageUrl = none := by
  have h := no_tool_call_declines politeDeclineOracles [] [] "cooking" [] ["doc"]
    ⟨Role.assistant, some "Nothing here fits that interest.", [], none, none⟩
    (by rfl) (by decide) (by rfl) (by rfl)
  exact ⟨h.1 "Nothing here fits that interest." rfl (by decide), h.2.2.1⟩

/-! ### The tool-call branch -/

/-- Events of a run that declines without entering the tool branch:
only the embedding call and the phase-1 chat call. -/
theorem mem_embed_chat1 (svc : String → Vec) (c : EmbCache) (q : String) (e : Event)
    (he : e ∈ (getEmbedding svc c q).events ++ [Event.chatCall 1]) :
    e = Event.embedCall q ∨ e = Event.chatCall 1 := by
  rcases getEmbedding_events svc c q with h0 | h0 <;> rw [h0] at he
  · simp at he
    exact Or.inr he
  · simpa using he

/-- Shape of `ask_book_chat` when retrieval is non-empty and the phase-1
reply's first tool call names `get_summary_by_title`: the title is looked
up, the tool message appended, phase 2 runs and the image section sees
that title and text. -/
theorem ask_tool_branch (o : Oracles) (s : List (String × String)) (c : EmbCache)
    (q : String) (m : List ChatMsg) (docs : List String) (reply : ChatMsg)
    (tc : ToolCall) (rest : List ToolCall) (msgs3 : List ChatMsg)
    (hdocs : o.indexQuery (getEmbedding o.embedSvc c q).vec = docs)
    (hd : docs ≠ [])
    (hreply : o.phase1 (m ++ [userMsg (buildPrompt q docs)]) = reply)
    (hr : reply.toolCalls = tc :: rest)
    (hfn : tc.fnName = "get_summary_by_title")
    (hmsgs : msgs3 = m ++ [userMsg (buildPrompt q docs), reply,
        toolMsg tc.id "get_summary_by_title" (get_summary_by_title s (titleOf tc))]) :
    ask_book_chat o s c q m =
      ⟨o.phase2 msgs3, (imagePhase o s (titleOf tc) (o.phase2 msgs3)).1, msgs3,
        (getEmbedding o.embedSvc c q).cache,
        (getEmbedding o.embedSvc c q).events ++ [Event.chatCall 1]
          ++ [Event.lookupCall (titleOf tc), Event.chatCall 2]
          ++ (imagePhase o s (titleOf tc) (o.phase2 msgs3)).2⟩ := by
  subst hmsgs
  simp [ask_book_chat, hdocs, hd, hreply, toolPhase, hr, hfn]

/-- The image section emits no event or exactly one image call. -/
theorem imagePhase_events (o : Oracles) (s : List (String × String))
    (t : String) (ft : Option String) :
    (imagePhase o s t ft).2 = [] ∨ (imagePhase o s t ft).2 = [Event.imageCall t] := by
  unfold imagePhase
  split
  · rcases eq_or_ne ((dictGet s t).getD "") "" with hb | hb
    · rw [if_neg (not_not_intro hb)]
      exact Or.inl rfl
    · rw [if_pos hb]
      exact Or.inr rfl
  · exact Or.inl rfl

/-! ### C3 — unknown title from the model -/

/-- C3: when the phase-1 reply's first tool call requests a title absent
from the Record table, phase 2 still executes (the second chat call is in
the trace), the tool-role message appended to the history carries the
not-found sentinel string rather than an exception, and the run completes
with the phase-2 text — `ask_book_chat` is a total function, so nothing
is raised to the caller. -/
theorem unknown_title_phase2_runs (o : Oracles) (s : List (String × String))
    (c : EmbCache) (q : String) (m : List ChatMsg) (docs : List String)
    (reply : ChatMsg) (tc : ToolCall) (rest : List ToolCall)
    (hdocs : o.indexQuery (getEmbedding o.embedSvc c q).vec = docs)
    (hd : docs ≠ [])
    (hreply : o.phase1 (m ++ [userMsg (buildPrompt q docs)]) = reply)
    (hr : reply.toolCalls = tc :: rest)
    (hfn : tc.fnName = "get_summary_by_title")
    (hmiss : dictGet s (titleOf tc) = none) :
    Event.chatCall 2 ∈ (ask_book_chat o s c q m).events
    ∧ (ask_book_chat o s c q m).history =
        m ++ [userMsg (buildPrompt q docs), reply,
          toolMsg tc.id "get_summary_by_title" (notFoundSentinel (titleOf tc))]
    ∧ (ask_book_chat o s c q m).text =
        o.phase2 (m ++ [userMsg (buildPrompt q docs), reply,
          toolMsg tc.id "get_summary_by_title" (notFoundSentinel (titleOf tc))]) := by
  have hsum : get_summary_by_title s (titleOf tc) = notFoundSentinel (titleOf tc) := by
    simp [get_summary_by_title, hmiss]
  have ha := ask_tool_branch o s c q m docs reply tc rest
    (m ++ [userMsg (buildPrompt q docs), reply,
      toolMsg tc.id "get_summary_by_title" (notFoundSentinel (titleOf tc))])
    hdocs hd hreply hr hfn (by rw [hsum])
  refine ⟨?_, by rw [ha], by rw [ha]⟩
  rw [ha]
  simp

/-- Oracles of a run that recommends "Book A" through the tool protocol,
with an image service that always raises. -/
def recommendOracles : Oracles :=
  { embedSvc := fun _ => [2]
    indexQuery := fun _ => ["Book A is about sailing."]
    phase1 := fun _ => ⟨Role.assistant, some "I recommend Book A.",
      [⟨"call_1", "get_summary_by_title", [("title", "Book A")]⟩], none, none⟩
    phase2 := fun _ => some "Book A: a tale of the sea."
    imageGen := fun _ => Except.error "image service down" }

/-- C3 (witness): with an empty Record table the concrete run still makes
the phase-2 chat call, and its tool message carries the sentinel. -/
theorem unknown_title_phase2_runs_witness :
    Event.chatCall 2 ∈ (ask_book_chat recommendOracles [] [] "sea" []).events := by
  have h := unknown_title_phase2_runs recommendOracles [] [] "sea" []
    ["Book A is about sailing."]
    ⟨Role.assistant, some "I recommend Book A.",
      [⟨"call_1", "get_summary_by_title", [("title", "Book A")]⟩], none, none⟩
    ⟨"call_1", "get_summary_by_title", [("title", "Book A")]⟩ []
    (by rfl) (by decide) (by rfl) (by rfl) (by rfl) (by rfl)
  exact h.1

/-! ### C9 — first tool call names another function -/

/-- C9: when the phase-1 reply's first tool call names any function other
than `get_summary_by_title`, no lookup happens, no tool-role message is
appended, no second chat call and no image call is made, and the run
returns the empty string (the initial `final_text_content`) with a null
image url — the no-tool-call fallback sentence is not applied on this
path. -/
theorem other_tool_name_returns_empty (o : Oracles) (s : List (String × String))
    (c : EmbCache) (q : String) (m : List ChatMsg) (docs : List String)
    (reply : ChatMsg) (tc : ToolCall) (rest : List ToolCall)
    (hdocs : o.indexQuery (getEmbedding o.embedSvc c q).vec = docs)
    (hd : docs ≠ [])
    (hreply : o.phase1 (m ++ [userMsg (buildPrompt q docs)]) = reply)
    (hr : reply.toolCalls = tc :: rest)
    (hfn : tc.fnName ≠ "get_summary_by_title") :
    (ask_book_chat o s c q m).text = some ""
    ∧ (ask_book_chat o s c q m).text ≠ some noResponseFallback
    ∧ (ask_book_chat o s c q m).imageUrl = none
    ∧ (ask_book_chat o s c q m).history = m ++ [userMsg (buildPrompt q docs), reply]
    ∧ (∀ t, Event.lookupCall t ∉ (ask_book_chat o s c q m).events)
    ∧ Event.chatCall 2 ∉ (ask_book_chat o s c q m).events
    ∧ (∀ t, Event.imageCall t ∉ (ask_book_chat o s c q m).events) := by
  have ha : ask_book_chat o s c q m =
      ⟨some "", none, m ++ [userMsg (buildPrompt q docs), reply],
        (getEmbedding o.embedSvc c q).cache,
        (getEmbedding o.embedSvc c q).events ++ [Event.chatCall 1]⟩ := by
    simp [ask_book_chat, hdocs, hd, hreply, toolPhase, hr, hfn, imagePhase]
  refine ⟨by rw [ha], by rw [ha]; simp [noResponseFallback], by rw [ha], by rw [ha],
    ?_, ?_, ?_⟩
  · intro t hmem
    rw [ha] at hmem
    rcases mem_embed_chat1 o.embedSvc c q _ hmem with h0 | h0 <;> exact Event.noConfusion h0
  · intro hmem
    rw [ha] at hmem
    rcases mem_embed_chat1 o.embedSvc c q _ hmem with h0 | h0
    · exact Event.noConfusion h0
    · simp at h0
  · intro t hmem
    rw [ha] at hmem
    rcases mem_embed_chat1 o.embedSvc c q _ hmem with h0 | h0 <;> exact Event.noConfusion h0

/-- Oracles whose phase-1 reply requests an undeclared function. -/
def wrongToolOracles : Oracles :=
  { embedSvc := fun _ => [3]
    indexQuery := fun _ => ["Book A is about sailing."]
    phase1 := fun _ => ⟨Role.assistant, some "Calling another tool.",
      [⟨"call_9", "delete_everything", [("title", "Book A")]⟩], none, none⟩
    phase2 := fun _ => some "unreachable"
    imageGen := fun _ => Except.ok (some "http://unreachable") }

/-- C9 (witness): the concrete wrong-function run returns the empty
string and no image. -/
theorem other_tool_name_returns_empty_witness :
    (ask_book_chat wrongToolOracles [] [] "sea" []).text = some ""
    ∧ (ask_book_chat wrongToolOracles [] [] "sea" []).imageUrl = none := by
  have h := other_tool_name_returns_empty wrongToolOracles [] [] "sea" []
    ["Book A is about sailing."]
    ⟨Role.assistant, some "Calling another tool.",
      [⟨"call_9", "delete_everything", [("title", "Book A")]⟩], none, none⟩
    ⟨"call_9", "delete_everything", [("title", "Book A")]⟩ []
    (by rfl) (by decide) (by rfl) (by rfl) (by decide)
  exact ⟨h.1, h.2.2.1⟩

/-! ### C5 — only the first tool call is honored -/

/-- Recognizer for lookup events in a trace. -/
def isLookupEvent : Event → Bool
  | Event.lookupCall _ => true
  | _ => false

/-- C5: when the phase-1 reply requests several simultaneous tool calls,
only the first is honored: the run performs exactly one lookup, for the
first call's title; exactly one tool-role message is appended and it
carries the first call's id and result; the final text is the phase-2
reply over that history; and no additional call from the same reply
produces a lookup of its own title. -/
theorem first_tool_call_only (o : Oracles) (s : List (String × String))
    (c : EmbCache) (q : String) (m : List ChatMsg) (docs : List String)
    (reply : ChatMsg) (tc : ToolCall) (rest : List ToolCall)
    (hdocs : o.indexQuery (getEmbedding o.embedSvc c q).vec = docs)
    (hd : docs ≠ [])
    (hreply : o.phase1 (m ++ [userMsg (buildPrompt q docs)]) = reply)
    (hr : reply.toolCalls = tc :: rest)
    (hfn : tc.fnName = "get_summary_by_title") :
    ((ask_book_chat o s c q m).events.filter isLookupEvent) =
        [Event.lookupCall (titleOf tc)]
    ∧ (ask_book_chat o s c q m).history =
        m ++ [userMsg (buildPrompt q docs), reply,
          toolMsg tc.id "get_summary_by_title" (get_summary_by_title s (titleOf tc))]
    ∧ (ask_book_chat o s c q m).text =
        o.phase2 (m ++ [userMsg (buildPrompt q docs), reply,
          toolMsg tc.id "get_summary_by_title" (get_summary_by_title s (titleOf tc))])
    ∧ ∀ tc2 ∈ rest, titleOf tc2 ≠ titleOf tc →
        Event.lookupCall (titleOf tc2) ∉ (ask_book_chat o s c q m).events := by
  have ha := ask_tool_branch o s c q m docs reply tc rest
    (m ++ [userMsg (buildPrompt q docs), reply,
      toolMsg tc.id "get_summary_by_title" (get_summary_by_title s (titleOf tc))])
    hdocs hd hreply hr hfn rfl
  refine ⟨?_, by rw [ha], by rw [ha], ?_⟩
  · rw [ha]
    rcases getEmbedding_events o.embedSvc c q with h0 | h0 <;>
      rcases imagePhase_events o s (titleOf tc)
          (o.phase2 (m ++ [userMsg (buildPrompt q docs), reply,
            toolMsg tc.id "get_summary_by_title"
              (get_summary_by_title s (titleOf tc))])) with h1 | h1 <;>
      rw [h0, h1] <;> simp [isLookupEvent]
  · intro tc2 _ hne hmem
    rw [ha] at hmem
    rcases getEmbedding_events o.embedSvc c q with h0 | h0 <;>
      rcases imagePhase_events o s (titleOf tc)
          (o.phase2 (m ++ [userMsg (buildPrompt q docs), reply,
            toolMsg tc.id "get_summary_by_title"
              (get_summary_by_title s (titleOf tc))])) with h1 | h1 <;>
      rw [h0, h1] at hmem <;> simp [hne] at hmem

/-- Oracles whose phase-1 reply requests two tool calls at once. -/
def twoToolCallOracles : Oracles :=
  { embedSvc := fun _ => [4]
    indexQuery := fun _ => ["Book A is about sailing.", "Book B is about trains."]
    phase1 := fun _ => ⟨Role.assistant, some "Two calls at once.",
      [⟨"call_1", "get_summary_by_title", [("title", "Book A")]⟩,
       ⟨"call_2", "get_summary_by_title", [("title", "Book B")]⟩], none, none⟩
    phase2 := fun _ => some "Here is Book A."
    imageGen := fun _ => Except.error "unused" }

/-- C5 (witness): with two parallel tool calls, exactly the first call's
title is looked up and the second's never is. -/
theorem first_tool_call_only_witness :
    ((ask_book_chat twoToolCallOracles [("Book A", "Full summary A")] [] "travel" []).events.filter
        isLookupEvent) = [Event.lookupCall "Book A"]
    ∧ Event.lookupCall "Book B" ∉
        (ask_book_chat twoToolCallOracles [("Book A", "Full summary A")] [] "travel" []).events := by
  have h := first_tool_call_only twoToolCallOracles [("Book A", "Full summary A")] []
    "travel" [] ["Book A is about sailing.", "Book B is about trains."]
    ⟨Role.assistant, some "Two calls at once.",
      [⟨"call_1", "get_summary_by_title", [("title", "Book A")]⟩,
       ⟨"call_2", "get_summary_by_title", [("title", "Book B")]⟩], none, none⟩
    ⟨"call_1", "get_summary_by_title", [("title", "Book A")]⟩
    [⟨"call_2", "get_summary_by_title", [("title", "Book B")]⟩]
    (by rfl) (by decide) (by rfl) (by rfl) (by rfl)
  exact ⟨h.1, h.2.2.2 ⟨"call_2", "get_summary_by_title", [("title", "Book B")]⟩
    (by simp) (by decide)⟩

/-! ### C8 — image failure is non-fatal -/

/-- C8: if the image-generation call raises, the failure is caught inside
the image synthesizer (`generate_image_for_book` returns `none`), and the
surrounding run — here one that recommended a known book with a non-empty
phase-2 text — still returns that non-empty text together with a null
image url; the image call was attempted, and since `ask_book_chat` is a
total function, the failure never propagates to the caller. -/
theorem image_failure_nonfatal (o : Oracles) (s : List (String × String))
    (c : EmbCache) (q : String) (m : List ChatMsg) (docs : List String)
    (reply : ChatMsg) (tc : ToolCall) (rest : List ToolCall)
    (msgs3 : List ChatMsg) (ft bs err : String)
    (hdocs : o.indexQuery (getEmbedding o.embedSvc c q).vec = docs)
    (hd : docs ≠ [])
    (hreply : o.phase1 (m ++ [userMsg (buildPrompt q docs)]) = reply)
    (hr : reply.toolCalls = tc :: rest)
    (hfn : tc.fnName = "get_summary_by_title")
    (hmsgs : msgs3 = m ++ [userMsg (buildPrompt q docs), reply,
        toolMsg tc.id "get_summary_by_title" (get_summary_by_title s (titleOf tc))])
    (ht : titleOf tc ≠ "")
    (hbs : dictGet s (titleOf tc) = some bs)
    (hbs2 : bs ≠ "")
    (hft : o.phase2 msgs3 = some ft)
    (hft2 : ft ≠ "")
    (himg : o.imageGen (imagePrompt (titleOf tc) bs) = Except.error err) :
    generate_image_for_book o.imageGen (titleOf tc) bs = none
    ∧ (ask_book_chat o s c q m).text = some ft
    ∧ (ask_book_chat o s c q m).imageUrl = none
    ∧ Event.imageCall (titleOf tc) ∈ (ask_book_chat o s c q m).events := by
  have hgen : generate_image_for_book o.imageGen (titleOf tc) bs = none := by
    simp [generate_image_for_book, himg]
  have hip : imagePhase o s (titleOf tc) (some ft) =
      (none, [Event.imageCall (titleOf tc)]) := by
    simp [imagePhase, ht, pyTruthy, hft2, hbs, hbs2, hgen]
  have ha := ask_tool_branch o s c q m docs reply tc rest msgs3
    hdocs hd hreply hr hfn hmsgs
  rw [hft] at ha
  refine ⟨hgen, ?_, ?_, ?_⟩
  · rw [ha]
  · rw [ha]
    simp [hip]
  · rw [ha]
    rw [hip]
    simp

/-- C8 (witness): the concrete recommending run whose image service
raises still returns its phase-2 text and a null image url. -/
theorem image_failure_nonfatal_witness :
    (ask_book_chat recommendOracles [("Book A", "Full summary A")] [] "sea" []).text =
        some "Book A: a tale of the sea."
    ∧ (ask_book_chat recommendOracles [("Book A", "Full summary A")] [] "sea" []).imageUrl =
        none := by
  have h := image_failure_nonfatal recommendOracles [("Book A", "Full summary A")] []
    "sea" [] ["Book A is about sailing."]
    ⟨Role.assistant, some "I recommend Book A.",
      [⟨"call_1", "get_summary_by_title", [("title", "Book A")]⟩], none, none⟩
    ⟨"call_1", "get_summary_by_title", [("title", "Book A")]⟩ []
    ([] ++ [userMsg (buildPrompt "sea" ["Book A is about sailing."]),
      ⟨Role.assistant, some "I recommend Book A.",
        [⟨"call_1", "get_summary_by_title", [("title", "Book A")]⟩], none, none⟩,
      toolMsg "call_1" "get_summary_by_title"
        (get_summary_by_title [("Book A", "Full summary A")] "Book A")])
    "Book A: a tale of the sea." "Full summary A" "image service down"
    (by rfl) (by decide) (by rfl) (by rfl) (by rfl) (by rfl) (by decide)
    (by rfl) (by decide) (by rfl) (by decide) (by rfl)
  exact ⟨h.2.1, h.2.2.1⟩

end SmartLibrarian
